import Mathlib

/-!
Verification of the NextMCP authorization core against its design spec.

The repository ships the error types (`nextmcp/auth/errors.py`) and the
example servers that exercise the auth core; the implementing modules
(`nextmcp/auth/core.py`, `rbac.py`, `manifest.py`, `oauth.py`,
`nextmcp/session`) are not part of the source tree here, so those
operations are modelled from the spec (each such definition says so in
its doc comment).  Timestamps (`time.time()`) are modelled as `Int`
seconds passed explicitly as a `now` argument; Python dicts are modelled
as association lists.
-/

set_option maxHeartbeats 1000000

/-- Modelled from the spec: `AuthContext` of `nextmcp/auth/core.py` is not
under src/; fields follow the data model in section 3 of the spec
(roles/permissions/scopes as string collections, metadata as a string map). -/
structure AuthContext where
  user_id : String
  username : String
  authenticated : Bool
  roles : List String
  permissions : List String
  scopes : List String
  metadata : List (String × String)
deriving DecidableEq

/-- Python `s.endswith(suffix)` on the character-list view of a string. -/
def strEndsWith (s suffix : String) : Bool :=
  suffix.data.isSuffixOf s.data

/-- Python `s.startswith(pre)` on the character-list view of a string. -/
def strStartsWith (s pre : String) : Bool :=
  pre.data.isPrefixOf s.data

/-- Python `s[:-n]`: the string without its last `n` characters. -/
def strDropRight (s : String) (n : Nat) : String :=
  String.mk (s.data.take (s.data.length - n))

/-- Modelled from the spec: `Permission.matches` of `nextmcp/auth/core.py` is
not under src/; section 4.1 wildcard rule — exact equality, the sole wildcard
`*`, or a trailing-`*` prefix wildcard (`granted` ends with `*` and `required`
starts with `granted[:-1]`); nothing else, case-sensitive. -/
def Permission.matches (granted required : String) : Bool :=
  granted == required ||
  granted == "*" ||
  (strEndsWith granted "*" && strStartsWith required (strDropRight granted 1))

/-- Modelled from the spec: `Role` of `nextmcp/auth/core.py` is not under
src/; a named role owning a set of assigned permission names. -/
structure Role where
  name : String
  description : String
  permissions : List String
deriving DecidableEq

/-- Modelled from the spec: the `RBAC` registry of `nextmcp/auth/rbac.py` is
not under src/; it owns the role and permission catalogs (section 4.2). -/
structure RBAC where
  roles : List (String × Role)
  permissions : List (String × String)
deriving DecidableEq

/-- Modelled from the spec: `RBAC.check_permission` of `nextmcp/auth/rbac.py`
is not under src/; per section 4.2 it tests only the permissions carried
directly on the context against the required string, never consulting the
registry (the `RBAC` receiver is unused by the check). -/
def RBAC.check_permission (_rb : RBAC) (ctx : AuthContext) (required : String) : Bool :=
  ctx.permissions.any (fun g => Permission.matches g required)

/-- Translated from src: `ManifestViolationError` attributes stored by
`ManifestViolationError.__init__` in `src/nextmcp/auth/errors.py`. -/
structure ManifestViolationError where
  message : String
  tool_name : Option String
  required_roles : List String
  required_permissions : List String
  required_scopes : List String
  user_id : Option String
  auth_context : Option AuthContext
deriving DecidableEq

/-- Python truthiness of `x or []` for an optional list argument, as used by
`ManifestViolationError.__init__` in `src/nextmcp/auth/errors.py`: `None` and
the empty list are falsy, so both yield `[]`. -/
def pyOrNil (x : Option (List String)) : List String :=
  match x with
  | none => []
  | some l => if l.isEmpty then [] else l

/-- Translated from src: `ManifestViolationError.__init__`
(`src/nextmcp/auth/errors.py` lines 111-140).  `message` is stored as given;
`tool_name`, `user_id` and `auth_context` are stored as given (possibly
`None`); each of the three requirement lists is normalized via `x or []`. -/
def ManifestViolationError.init (message : String) (tool_name : Option String)
    (required_roles required_permissions required_scopes : Option (List String))
    (user_id : Option String) (auth_context : Option AuthContext) :
    ManifestViolationError :=
  { message := message
    tool_name := tool_name
    required_roles := pyOrNil required_roles
    required_permissions := pyOrNil required_permissions
    required_scopes := pyOrNil required_scopes
    user_id := user_id
    auth_context := auth_context }

/-- Modelled from the spec: `ToolPermission` of `nextmcp/auth/manifest.py` is
not under src/; data model of section 3 (any of the three lists may be empty,
meaning not checked). -/
structure ToolPermission where
  tool_name : String
  roles : List String
  permissions : List String
  scopes : List String
  description : String
  dangerous : Bool
deriving DecidableEq

/-- Modelled from the spec: `ScopeDefinition` of `nextmcp/auth/manifest.py`
is not under src/; name, description and the per-provider OAuth mapping. -/
structure ScopeDefinition where
  name : String
  description : String
  oauth_mapping : List (String × List String)
deriving DecidableEq

/-- Modelled from the spec: `PermissionManifest` of `nextmcp/auth/manifest.py`
is not under src/; it owns the scope catalog and the map from tool name to
`ToolPermission` (modelled as an association list). -/
structure PermissionManifest where
  scopes : List ScopeDefinition
  tools : List (String × ToolPermission)
deriving DecidableEq

/-- Lookup of the `ToolPermission` registered under a tool name. -/
def PermissionManifest.get_tool (m : PermissionManifest) (tool_name : String) :
    Option ToolPermission :=
  (m.tools.find? (fun p => p.fst == tool_name)).map Prod.snd

/-- Modelled from the spec: `PermissionManifest.define_scope` of
`nextmcp/auth/manifest.py` is not under src/ (section 4.5). -/
def PermissionManifest.define_scope (m : PermissionManifest) (name description : String)
    (oauth_mapping : List (String × List String)) : PermissionManifest :=
  { m with scopes := m.scopes ++
      [{ name := name, description := description, oauth_mapping := oauth_mapping }] }

/-- Modelled from the spec: `PermissionManifest.define_tool_permission` of
`nextmcp/auth/manifest.py` is not under src/ (section 4.5); registers the
tool under its name. -/
def PermissionManifest.define_tool_permission (m : PermissionManifest)
    (tool_name : String) (roles permissions scopes : List String)
    (description : String) (dangerous : Bool) : PermissionManifest :=
  { m with tools := m.tools ++
      [(tool_name,
        { tool_name := tool_name, roles := roles, permissions := permissions,
          scopes := scopes, description := description, dangerous := dangerous })] }

/-- Modelled from the spec: `PermissionManifest.enforce` of
`nextmcp/auth/manifest.py` is not under src/; evaluation rule of section 4.5
(absent registration always permits; OR within each non-empty category,
permissions via the section 4.1 rule, roles and scopes by exact membership;
AND across categories; denial raises `ManifestViolationError` built as in
`src/nextmcp/auth/errors.py`). -/
def PermissionManifest.enforce (m : PermissionManifest) (ctx : AuthContext)
    (tool_name : String) : Except ManifestViolationError Unit :=
  match m.get_tool tool_name with
  | none => Except.ok ()
  | some tp =>
    let roles_ok := tp.roles.isEmpty || tp.roles.any (fun r => ctx.roles.contains r)
    let perms_ok := tp.permissions.isEmpty ||
      tp.permissions.any (fun p => ctx.permissions.any (fun g => Permission.matches g p))
    let scopes_ok := tp.scopes.isEmpty || tp.scopes.any (fun s => ctx.scopes.contains s)
    if roles_ok && perms_ok && scopes_ok then Except.ok ()
    else Except.error (ManifestViolationError.init
      ("Access denied to tool: " ++ tool_name) (some tool_name)
      (some tp.roles) (some tp.permissions) (some tp.scopes)
      (some ctx.user_id) (some ctx))

/-- Modelled from the spec: `SessionData` of `nextmcp/session` is not under
src/; data model of section 3, with `expires_at` an absolute timestamp in
seconds (an `Int` here) and maps modelled as association lists. -/
structure SessionData where
  user_id : String
  access_token : String
  refresh_token : Option String
  expires_at : Int
  scopes : List String
  provider : String
  user_info : List (String × String)
  metadata : List (String × String)
deriving DecidableEq

/-- Modelled from the spec: `SessionData.is_expired` of `nextmcp/session` is
not under src/; section 4.4: `now() >= expires_at`, with the clock passed
explicitly. -/
def SessionData.is_expired (s : SessionData) (now : Int) : Bool :=
  decide (s.expires_at ≤ now)

/-- Modelled from the spec: `SessionData.needs_refresh` of `nextmcp/session`
is not under src/; section 4.4: `now() >= expires_at - buffer_seconds`. -/
def SessionData.needs_refresh (s : SessionData) (now buffer_seconds : Int) : Bool :=
  decide (s.expires_at - buffer_seconds ≤ now)

/-- `needs_refresh` at its default `buffer_seconds=300` (Python default
arguments are spelled out explicitly in this embedding). -/
def SessionData.needs_refresh_default (s : SessionData) (now : Int) : Bool :=
  s.needs_refresh now 300

/-- Modelled from the spec: `MemorySessionStore` of `nextmcp/session` is not
under src/; the in-memory backend, a Python dict keyed by `user_id`, modelled
as an association list. -/
structure MemorySessionStore where
  sessions : List (String × SessionData)
deriving DecidableEq

/-- Modelled from the spec: `save` of the session-store contract
(section 4.4); dict assignment keyed by the session user id — any previous
record for that user is replaced. -/
def MemorySessionStore.save (st : MemorySessionStore) (s : SessionData) :
    MemorySessionStore :=
  { sessions := st.sessions.filter (fun p => p.fst != s.user_id) ++ [(s.user_id, s)] }

/-- Modelled from the spec: `load` of the session-store contract
(section 4.4); a missing user yields the explicit absent value `none`. -/
def MemorySessionStore.load (st : MemorySessionStore) (user_id : String) :
    Option SessionData :=
  (st.sessions.find? (fun p => p.fst == user_id)).map Prod.snd

/-- Modelled from the spec: `delete` of the session-store contract. -/
def MemorySessionStore.delete (st : MemorySessionStore) (user_id : String) :
    MemorySessionStore :=
  { sessions := st.sessions.filter (fun p => p.fst != user_id) }

/-- Modelled from the spec: `list_users` of the session-store contract. -/
def MemorySessionStore.list_users (st : MemorySessionStore) : List String :=
  st.sessions.map Prod.fst

/-- Modelled from the spec: `cleanup_expired` of the session-store contract
(section 4.4); removes exactly the records it reads as expired at `now` and
returns how many it removed. -/
def MemorySessionStore.cleanup_expired (st : MemorySessionStore) (now : Int) :
    MemorySessionStore × Nat :=
  let expired := st.sessions.filter (fun p => p.snd.is_expired now)
  ({ sessions := st.sessions.filter (fun p => !(p.snd.is_expired now)) },
   expired.length)

/-- Modelled from the spec: `update_tokens` of the session-store contract
(section 4.4); atomically replaces `access_token`, `refresh_token` and
`expires_at` (recomputed as `now() + expires_in`) of the stored session,
preserving every other field; absent user yields `none`. -/
def MemorySessionStore.update_tokens (st : MemorySessionStore)
    (user_id access_token : String) (refresh_token : Option String)
    (expires_in now : Int) : Option MemorySessionStore :=
  match st.load user_id with
  | none => none
  | some s => some (st.save
      { s with access_token := access_token, refresh_token := refresh_token,
               expires_at := now + expires_in })

/-- The declaration-format value of one tool entry: the `tools` map of the
manifest document carries everything of a `ToolPermission` except the tool
name, which is the key (section 6 of the spec). -/
structure ToolDoc where
  roles : List String
  permissions : List String
  scopes : List String
  description : String
  dangerous : Bool
deriving DecidableEq

/-- Modelled from the spec: the manifest declaration format of section 6 —
top-level `scopes` list and `tools` map from tool name to entry. -/
structure ManifestDocument where
  scopes : List ScopeDefinition
  tools : List (String × ToolDoc)
deriving DecidableEq

/-- Modelled from the spec: export of a `PermissionManifest` to the
declaration format (section 6 serialization contract). -/
def PermissionManifest.export (m : PermissionManifest) : ManifestDocument :=
  { scopes := m.scopes
    tools := m.tools.map (fun p =>
      (p.fst,
       { roles := p.snd.roles, permissions := p.snd.permissions,
         scopes := p.snd.scopes, description := p.snd.description,
         dangerous := p.snd.dangerous })) }

/-- Modelled from the spec: import of a declaration-format document into a
`PermissionManifest`; each tool entry gets its `tool_name` from its key in
the `tools` map. -/
def PermissionManifest.importDoc (d : ManifestDocument) : PermissionManifest :=
  { scopes := d.scopes
    tools := d.tools.map (fun p =>
      (p.fst,
       { tool_name := p.fst, roles := p.snd.roles,
         permissions := p.snd.permissions, scopes := p.snd.scopes,
         description := p.snd.description, dangerous := p.snd.dangerous })) }

def w32 : Nat := 4294967296

def rotr32 (n x : Nat) : Nat :=
  ((x >>> n) ||| (x <<< (32 - n))) % w32

/-- The first 64 primes, found by trial division; the SHA-256 round and
initialization constants are derived from them. -/
def isPrimeNat (n : Nat) : Bool :=
  2 <= n && (((List.range n).drop 2).all (fun d => n % d != 0))

def firstPrimes (k : Nat) : List Nat :=
  ((List.range 400).filter isPrimeNat).take k

def cbrtSearch (n : Nat) : Nat → Nat → Nat → Nat
  | 0, lo, _ => lo
  | fuel + 1, lo, hi =>
    if hi <= lo + 1 then lo
    else
      let mid := (lo + hi) / 2
      if mid * mid * mid <= n then cbrtSearch n fuel mid hi
      else cbrtSearch n fuel lo mid

/-- Integer cube root by bisection. -/
def natCbrt (n : Nat) : Nat := cbrtSearch n 200 0 (n + 1)

/-- SHA-256 round constants: the first 32 bits of the fractional parts of
the cube roots of the first 64 primes. -/
def sha256K : List Nat :=
  (firstPrimes 64).map (fun p => natCbrt (p <<< 96) % w32)

/-- SHA-256 initial hash state: the first 32 bits of the fractional parts of
the square roots of the first 8 primes. -/
def sha256H0 : List Nat :=
  (firstPrimes 8).map (fun p => Nat.sqrt (p <<< 64) % w32)

def sha256Pad (msg : List Nat) : List Nat :=
  let len := msg.length
  let zeros := (119 - (len % 64)) % 64
  msg ++ [0x80] ++ List.replicate zeros 0 ++
    (List.range 8).map (fun i => ((len * 8) >>> (8 * (7 - i))) % 256)

def toBlocks (l : List Nat) : List (List Nat) :=
  if h : l = [] then [] else l.take 64 :: toBlocks (l.drop 64)
termination_by l.length
decreasing_by
  simp only [List.length_drop]
  have hl : 0 < l.length := List.length_pos.mpr h
  omega

def wordsOfBlock (b : List Nat) : List Nat :=
  (List.range 16).map (fun i =>
    (b.getD (4 * i) 0) * 16777216 + (b.getD (4 * i + 1) 0) * 65536 +
    (b.getD (4 * i + 2) 0) * 256 + b.getD (4 * i + 3) 0)

def smallSigma0 (x : Nat) : Nat := rotr32 7 x ^^^ rotr32 18 x ^^^ (x >>> 3)

def smallSigma1 (x : Nat) : Nat := rotr32 17 x ^^^ rotr32 19 x ^^^ (x >>> 10)

def bigSigma0 (x : Nat) : Nat := rotr32 2 x ^^^ rotr32 13 x ^^^ rotr32 22 x

def bigSigma1 (x : Nat) : Nat := rotr32 6 x ^^^ rotr32 11 x ^^^ rotr32 25 x

def sha256ExtendStep (w : List Nat) : List Nat :=
  let n := w.length
  w ++ [(w.getD (n - 16) 0 + smallSigma0 (w.getD (n - 15) 0) +
         w.getD (n - 7) 0 + smallSigma1 (w.getD (n - 2) 0)) % w32]

def sha256Schedule (b : List Nat) : List Nat :=
  (List.range 48).foldl (fun w _ => sha256ExtendStep w) (wordsOfBlock b)

def sha256Ch (e f g : Nat) : Nat := (e &&& f) ^^^ ((e ^^^ 0xffffffff) &&& g)

def sha256Maj (a b c : Nat) : Nat := (a &&& b) ^^^ (a &&& c) ^^^ (b &&& c)

def sha256Round (st : List Nat) (wk : Nat × Nat) : List Nat :=
  match st with
  | [a, b, c, d, e, f, g, h] =>
    let t1 := (h + bigSigma1 e + sha256Ch e f g + wk.snd + wk.fst) % w32
    let t2 := (bigSigma0 a + sha256Maj a b c) % w32
    [(t1 + t2) % w32, a, b, c, (d + t1) % w32, e, f, g]
  | other => other

def sha256Compress (hs : List Nat) (b : List Nat) : List Nat :=
  let final := ((sha256Schedule b).zip sha256K).foldl sha256Round hs
  (hs.zip final).map (fun p => (p.fst + p.snd) % w32)

def sha256 (msg : List Nat) : List Nat :=
  let hs := (toBlocks (sha256Pad msg)).foldl sha256Compress sha256H0
  hs.foldr (fun h acc =>
    (h >>> 24) % 256 :: (h >>> 16) % 256 :: (h >>> 8) % 256 :: h % 256 :: acc) []

def b64urlAlphabet : List Char :=
  "ABCDEFGHIJKLMNOPQRSTUVWXYZabcdefghijklmnopqrstuvwxyz0123456789-_".data

def b64At (i : Nat) : Char := b64urlAlphabet.getD i 'A'

def base64urlChars : List Nat → List Char
  | [] => []
  | [b1] => [b64At (b1 >>> 2), b64At ((b1 % 4) <<< 4)]
  | [b1, b2] => [b64At (b1 >>> 2), b64At (((b1 % 4) <<< 4) ||| (b2 >>> 4)),
                 b64At ((b2 % 16) <<< 2)]
  | b1 :: b2 :: b3 :: rest =>
    b64At (b1 >>> 2) :: b64At (((b1 % 4) <<< 4) ||| (b2 >>> 4)) ::
    b64At (((b2 % 16) <<< 2) ||| (b3 >>> 6)) :: b64At (b3 % 64) :: base64urlChars rest

def base64urlEncode (bytes : List Nat) : String := String.mk (base64urlChars bytes)

def strBytes (s : String) : List Nat := s.data.map Char.toNat

/-- The RFC 3986 unreserved charset used for PKCE verifiers (66 chars). -/
def unreservedChars : List Char :=
  "ABCDEFGHIJKLMNOPQRSTUVWXYZabcdefghijklmnopqrstuvwxyz0123456789-._~".data

/-- Modelled from the spec: the random PKCE verifier of section 3 — a string
drawn from the unreserved charset whose length lies in 43-128; the
cryptographic randomness source is an explicit entropy argument, and the
generated verifier has 43 characters, each selected by one entropy draw. -/
def verifierFromEntropy (entropy : List Nat) : String :=
  String.mk ((List.range 43).map (fun i =>
    unreservedChars.getD ((entropy.getD i 0) % 66) 'A'))

/-- Modelled from the spec: the random CSRF `state` token issued together
with the authorization URL, from an explicit entropy argument. -/
def stateFromEntropy (entropy : List Nat) : String :=
  String.mk ((List.range 32).map (fun i =>
    unreservedChars.getD ((entropy.getD i 0) % 66) 'A'))

/-- Modelled from the spec: `OAuthConfig` of `nextmcp/auth/oauth.py` is not
under src/; provider endpoints, client credentials and requested scopes. -/
structure OAuthConfig where
  client_id : String
  client_secret : String
  redirect_uri : String
  scope : List String
  authorization_endpoint : String
  token_endpoint : String
  userinfo_endpoint : String
  extra_auth_params : List (String × String)
deriving DecidableEq

/-- The outcome of `generate_authorization_url`: the authorization endpoint
with its query parameters, plus the issued `state` and `verifier` that the
caller must hold (section 3, authorization attempt state). -/
structure AuthUrlResult where
  endpoint : String
  params : List (String × String)
  state : String
  verifier : String
  challenge : String
deriving DecidableEq

/-- Modelled from the spec: `generate_authorization_url` of
`nextmcp/auth/oauth.py` is not under src/; section 4.3 step 1 — generate
`verifier` and `state`, compute `challenge = base64url(sha256(verifier))`
with method `S256`, and build the authorization URL query with `client_id`,
`redirect_uri`, space-separated `scope`, `state`, `code_challenge` and
`code_challenge_method=S256` plus provider extras. -/
def generate_authorization_url (cfg : OAuthConfig)
    (verifier_entropy state_entropy : List Nat) : AuthUrlResult :=
  let verifier := verifierFromEntropy verifier_entropy
  let state := stateFromEntropy state_entropy
  let challenge := base64urlEncode (sha256 (strBytes verifier))
  { endpoint := cfg.authorization_endpoint
    params := [("client_id", cfg.client_id), ("redirect_uri", cfg.redirect_uri),
               ("scope", String.intercalate " " cfg.scope), ("state", state),
               ("code_challenge", challenge),
               ("code_challenge_method", "S256")] ++ cfg.extra_auth_params
    state := state
    verifier := verifier
    challenge := challenge }

/-- Token-endpoint response fields (section 6 of the spec). -/
structure TokenData where
  access_token : String
  token_type : String
  expires_in : Int
  refresh_token : Option String
  scope : String
deriving DecidableEq

/-- The form body posted to the token endpoint at code exchange
(section 4.3 step 2). -/
structure TokenRequest where
  grant_type : String
  code : String
  client_id : String
  client_secret : String
  redirect_uri : String
  code_verifier : String
deriving DecidableEq

/-- Modelled from the spec: the OAuth error taxonomy of section 7 relevant to
the flow engine — `StateMismatchError` and `ProviderError`. -/
inductive OAuthError where
  | stateMismatch (message : String)
  | provider (status : Nat) (body : String)
deriving DecidableEq

/-- Modelled from the spec: `exchange_code_for_token` of
`nextmcp/auth/oauth.py` is not under src/; section 4.3 step 2 — the supplied
`state` is compared with the one issued in step 1 before anything else;
on mismatch the call fails with `StateMismatchError` and the token endpoint
is never contacted (the HTTP POST is the explicit `post` argument, which is
consulted only in the matching branch). -/
def exchange_code_for_token (cfg : OAuthConfig) (issued_state : String)
    (code state verifier : String)
    (post : TokenRequest → Except (Nat × String) TokenData) :
    Except OAuthError TokenData :=
  if state == issued_state then
    match post { grant_type := "authorization_code", code := code,
                 client_id := cfg.client_id, client_secret := cfg.client_secret,
                 redirect_uri := cfg.redirect_uri, code_verifier := verifier } with
    | Except.ok td => Except.ok td
    | Except.error pe => Except.error (OAuthError.provider pe.fst pe.snd)
  else Except.error (OAuthError.stateMismatch "State mismatch - possible CSRF attack")

/-- The active session of Example 7 in
`src/examples/auth/session_management_example.py` (expires well after the
demo clock value 1000 used below). -/
def activeSession : SessionData :=
  { user_id := "active_user", access_token := "token_active",
    refresh_token := none, expires_at := 4600, scopes := ["profile"],
    provider := "google", user_info := [], metadata := [] }

/-- The already-expired session of Example 7 in
`src/examples/auth/session_management_example.py` (expired 10 seconds before
the demo clock value 1000). -/
def expiredSession : SessionData :=
  { user_id := "expired_user", access_token := "token_expired",
    refresh_token := none, expires_at := 990, scopes := ["profile"],
    provider := "google", user_info := [], metadata := [] }

/-- A store holding one active and one expired session, as in the cleanup
demonstration of `src/examples/auth/session_management_example.py`. -/
def demoStore : MemorySessionStore :=
  { sessions := [("active_user", activeSession), ("expired_user", expiredSession)] }

/-- The session of Example 1 in
`src/examples/auth/session_management_example.py` (user123). -/
def user123Session : SessionData :=
  { user_id := "user123", access_token := "ya29.a0ATi6K2example_access_token",
    refresh_token := some "1//01example_refresh_token", expires_at := 3600,
    scopes := ["openid", "email", "profile"], provider := "google",
    user_info := [("email", "user@example.com"), ("name", "John Doe")],
    metadata := [] }

/-- A store holding the user123 session, as before the token-refresh
demonstration of `src/examples/auth/session_management_example.py`. -/
def user123Store : MemorySessionStore :=
  { sessions := [("user123", user123Session)] }

/-- The manifest built programmatically in
`src/examples/auth/manifest_server.py` (lines 48-97): two scope definitions
and four tool permissions. -/
def demoManifest : PermissionManifest :=
  ((((((PermissionManifest.mk [] []).define_scope "read:data"
      "Read access to data"
      [("github", ["repo:read"]), ("google", ["drive.readonly"])]).define_scope
      "write:data" "Write access to data"
      [("github", ["repo:write"]), ("google", ["drive.file"])]).define_tool_permission
      "query_database" ["viewer", "editor", "admin"] ["read:data"] []
      "Query database for information" false).define_tool_permission
      "update_database" ["editor", "admin"] ["write:data"] []
      "Update database records" false).define_tool_permission
      "delete_all_data" ["admin"] ["admin:all"] ["admin:full"]
      "Delete all data (DANGEROUS)" true).define_tool_permission
      "export_user_data" ["admin", "data_analyst"] ["export:data", "read:data"] []
      "Export user data for analysis" false

/-- A GitHub-style provider configuration as in
`src/examples/auth/oauth_token_helper.py` (get_github_token). -/
def demoOAuthConfig : OAuthConfig :=
  { client_id := "client123", client_secret := "secret456",
    redirect_uri := "http://localhost:8080/oauth/callback",
    scope := ["read:user", "repo"],
    authorization_endpoint := "https://github.com/login/oauth/authorize",
    token_endpoint := "https://github.com/login/oauth/access_token",
    userinfo_endpoint := "https://api.github.com/user",
    extra_auth_params := [] }

/-- The user456 session of Example 2 in
`src/examples/auth/session_management_example.py`, with a parametric expiry
timestamp. -/
def sessionWithExpiry (e : Int) : SessionData :=
  { user_id := "user456", access_token := "token_expires_soon",
    refresh_token := none, expires_at := e, scopes := ["profile"],
    provider := "google", user_info := [], metadata := [] }

theorem data_mk (l : List Char) : (String.mk l).data = l := rfl

theorem pyOrNil_eq_getD (x : Option (List String)) : pyOrNil x = x.getD [] := by
  cases x with
  | none => rfl
  | some l => cases l <;> rfl

/-- C2: wildcard permission matching is exact equality, the sole global
wildcard `*`, or a trailing-`*` prefix wildcard (the required string extends
the granted string minus its final star); it is case-sensitive and honors no
other wildcard position, as the concrete cases illustrate. -/
theorem permission_matches_spec :
    (∀ granted required : String,
      Permission.matches granted required = true ↔
        (granted = required ∨ granted = "*" ∨
          (∃ stem, granted.data = stem ++ ['*'] ∧
            ∃ rest, required.data = stem ++ rest)))
    ∧ Permission.matches "read:*" "read:posts" = true
    ∧ Permission.matches "read:*" "write:posts" = false
    ∧ Permission.matches "*" "anything" = true
    ∧ Permission.matches "read:posts" "read:posts" = true
    ∧ Permission.matches "READ:*" "read:posts" = false
    ∧ Permission.matches "read:?" "read:posts" = false
    ∧ Permission.matches "re*d:posts" "read:posts" = false := by
  refine ⟨?_, by decide, by decide, by decide, by decide, by decide,
    by decide, by decide⟩
  intro granted required
  unfold Permission.matches strEndsWith strStartsWith strDropRight
  simp only [Bool.or_eq_true, Bool.and_eq_true, beq_iff_eq,
    List.isSuffixOf_iff_suffix, List.isPrefixOf_iff_prefix, data_mk]
  constructor
  · rintro ((h | h) | ⟨hsuf, hpre⟩)
    · exact Or.inl h
    · exact Or.inr (Or.inl h)
    · obtain ⟨stem, hstem⟩ := hsuf
      refine Or.inr (Or.inr ⟨stem, hstem.symm, ?_⟩)
      obtain ⟨rest, hrest⟩ := hpre
      refine ⟨rest, ?_⟩
      rw [← hrest]
      congr 1
      rw [← hstem, List.length_append]
      simpa using (List.take_left stem ['*'])
  · rintro (h | h | ⟨stem, hstem, rest, hrest⟩)
    · exact Or.inl (Or.inl h)
    · exact Or.inl (Or.inr h)
    · refine Or.inr ⟨⟨stem, hstem.symm⟩, ?_⟩
      have htake : (granted.data.take (granted.data.length - 1)) = stem := by
        rw [hstem, List.length_append]
        simpa using (List.take_left stem ['*'])
      rw [htake, hrest]
      exact ⟨rest, rfl⟩

/-- C3: `RBAC.check_permission` holds iff some permission carried directly on
the context matches the required string under the section 4.1 rule; the
result never depends on the registry contents (no role lookup); a context
granted `*` passes any requirement and a context granted only `read:*` fails
`write:posts`. -/
theorem rbac_check_permission_spec :
    (∀ (rb : RBAC) (ctx : AuthContext) (required : String),
      (RBAC.check_permission rb ctx required = true ↔
        ∃ g, g ∈ ctx.permissions ∧ Permission.matches g required = true)
      ∧ ∀ rb2 : RBAC, RBAC.check_permission rb ctx required =
          RBAC.check_permission rb2 ctx required)
    ∧ (∀ (rb : RBAC) (ctx : AuthContext) (required : String),
        "*" ∈ ctx.permissions → RBAC.check_permission rb ctx required = true)
    ∧ (∀ (rb : RBAC) (ctx : AuthContext),
        ctx.permissions = ["read:*"] →
          RBAC.check_permission rb ctx "write:posts" = false) := by
  refine ⟨fun rb ctx required => ⟨?_, fun rb2 => rfl⟩, ?_, ?_⟩
  · unfold RBAC.check_permission
    simp [List.any_eq_true]
  · intro rb ctx required hmem
    unfold RBAC.check_permission
    rw [List.any_eq_true]
    exact ⟨"*", hmem, by simp [Permission.matches]⟩
  · intro rb ctx hperm
    simp only [RBAC.check_permission, hperm]
    decide

/-- C10: the `ManifestViolationError` constructor always stores list-valued
requirement attributes — each equals the list argument passed, or `[]` when
the argument is `None` — while `message`, `tool_name`, `user_id` and
`auth_context` are stored exactly as given. -/
theorem manifest_violation_error_init_spec :
    ∀ (message : String) (tool_name : Option String)
      (rr rp rs : Option (List String)) (user_id : Option String)
      (actx : Option AuthContext),
      (ManifestViolationError.init message tool_name rr rp rs user_id actx).message
          = message
      ∧ (ManifestViolationError.init message tool_name rr rp rs user_id actx).tool_name
          = tool_name
      ∧ (ManifestViolationError.init message tool_name rr rp rs user_id actx).user_id
          = user_id
      ∧ (ManifestViolationError.init message tool_name rr rp rs user_id actx).auth_context
          = actx
      ∧ (ManifestViolationError.init message tool_name rr rp rs user_id actx).required_roles
          = rr.getD []
      ∧ (ManifestViolationError.init message tool_name rr rp rs user_id actx).required_permissions
          = rp.getD []
      ∧ (ManifestViolationError.init message tool_name rr rp rs user_id actx).required_scopes
          = rs.getD [] := by
  intro message tool_name rr rp rs user_id actx
  exact ⟨rfl, rfl, rfl, rfl, pyOrNil_eq_getD rr, pyOrNil_eq_getD rp,
    pyOrNil_eq_getD rs⟩

/-- C6: `is_expired` holds iff the clock has reached `expires_at`, and
`needs_refresh` (default buffer 300 seconds) holds iff the clock has reached
`expires_at - buffer_seconds`; in particular a session expiring in 120
seconds needs refresh under the default buffer but not under a 60-second
buffer and is not expired, while a session that expired 10 seconds ago is
expired. -/
theorem session_expiry_spec :
    (∀ (s : SessionData) (now : Int),
      (s.is_expired now = true ↔ s.expires_at ≤ now))
    ∧ (∀ (s : SessionData) (now buffer_seconds : Int),
      (s.needs_refresh now buffer_seconds = true ↔
        s.expires_at - buffer_seconds ≤ now))
    ∧ (∀ (s : SessionData) (now : Int),
      s.needs_refresh_default now = s.needs_refresh now 300)
    ∧ (∀ now : Int,
      (sessionWithExpiry (now + 120)).needs_refresh_default now = true
      ∧ (sessionWithExpiry (now + 120)).needs_refresh now 60 = false
      ∧ (sessionWithExpiry (now + 120)).is_expired now = false
      ∧ (sessionWithExpiry (now - 10)).is_expired now = true) := by
  refine ⟨fun s now => decide_eq_true_iff, fun s now b => decide_eq_true_iff,
    fun s now => rfl, fun now => ⟨?_, ?_, ?_, ?_⟩⟩ <;>
    simp only [sessionWithExpiry, SessionData.needs_refresh_default,
      SessionData.needs_refresh, SessionData.is_expired, decide_eq_true_eq,
      decide_eq_false_iff_not, not_le] <;> omega

theorem role_category_iff (req owned : List String) :
    (req.isEmpty || req.any (fun r => owned.contains r)) = true ↔
      (req = [] ∨ ∃ r, r ∈ req ∧ r ∈ owned) := by
  simp [List.isEmpty_iff, List.any_eq_true, List.elem_iff]

theorem perm_category_iff (req granted : List String) :
    (req.isEmpty ||
      req.any (fun p => granted.any (fun g => Permission.matches g p))) = true ↔
      (req = [] ∨ ∃ p, p ∈ req ∧
        ∃ g, g ∈ granted ∧ Permission.matches g p = true) := by
  simp [List.isEmpty_iff, List.any_eq_true]

theorem pyOrNil_some (l : List String) : pyOrNil (some l) = l := by
  cases l <;> rfl

theorem enforce_of_none (m : PermissionManifest) (ctx : AuthContext)
    (t : String) (h : m.get_tool t = none) : m.enforce ctx t = Except.ok () := by
  unfold PermissionManifest.enforce
  rw [h]

theorem enforce_of_some (m : PermissionManifest) (ctx : AuthContext)
    (t : String) (tp : ToolPermission) (h : m.get_tool t = some tp) :
    m.enforce ctx t =
      (if (tp.roles.isEmpty || tp.roles.any (fun r => ctx.roles.contains r)) &&
          (tp.permissions.isEmpty ||
            tp.permissions.any (fun p =>
              ctx.permissions.any (fun g => Permission.matches g p))) &&
          (tp.scopes.isEmpty || tp.scopes.any (fun sc => ctx.scopes.contains sc))
       then Except.ok ()
       else Except.error (ManifestViolationError.init
        ("Access denied to tool: " ++ t) (some t)
        (some tp.roles) (some tp.permissions) (some tp.scopes)
        (some ctx.user_id) (some ctx))) := by
  unfold PermissionManifest.enforce
  rw [h]

/-- C1: `enforce` succeeds exactly when every non-empty category of the
registered `ToolPermission` (roles by exact membership, permissions by the
section 4.1 wildcard rule against the context permissions, scopes by exact
membership) is satisfied; an unregistered tool is always permitted; and the
denial error carries the tool name, the required roles/permissions/scopes
lists, and the user id of the context. -/
theorem manifest_enforce_spec (m : PermissionManifest) (ctx : AuthContext)
    (t : String) :
    ((m.enforce ctx t = Except.ok ()) ↔
      ∀ tp, m.get_tool t = some tp →
        ((tp.roles = [] ∨ ∃ r, r ∈ tp.roles ∧ r ∈ ctx.roles) ∧
         (tp.permissions = [] ∨ ∃ p, p ∈ tp.permissions ∧
            ∃ g, g ∈ ctx.permissions ∧ Permission.matches g p = true) ∧
         (tp.scopes = [] ∨ ∃ sc, sc ∈ tp.scopes ∧ sc ∈ ctx.scopes)))
    ∧ (m.get_tool t = none → m.enforce ctx t = Except.ok ())
    ∧ (∀ e, m.enforce ctx t = Except.error e →
        e.tool_name = some t ∧ e.user_id = some ctx.user_id ∧
        ∃ tp, m.get_tool t = some tp ∧ e.required_roles = tp.roles ∧
          e.required_permissions = tp.permissions ∧
          e.required_scopes = tp.scopes) := by
  refine ⟨?_, fun h => enforce_of_none m ctx t h, ?_⟩
  · cases hl : m.get_tool t with
    | none =>
      rw [enforce_of_none m ctx t hl]
      simp [hl]
    | some tp =>
      rw [enforce_of_some m ctx t tp hl]
      split
      case isTrue hc =>
        rw [Bool.and_eq_true, Bool.and_eq_true] at hc
        obtain ⟨⟨hr, hp⟩, hs⟩ := hc
        constructor
        · intro _ tp' htp'
          injection htp' with htp'
          subst htp'
          exact ⟨(role_category_iff tp.roles ctx.roles).mp hr,
            (perm_category_iff tp.permissions ctx.permissions).mp hp,
            (role_category_iff tp.scopes ctx.scopes).mp hs⟩
        · intro _
          rfl
      case isFalse hc =>
        constructor
        · intro hok
          exact absurd hok (by simp)
        · intro hall
          exfalso
          apply hc
          have hthis := hall tp rfl
          rw [Bool.and_eq_true, Bool.and_eq_true]
          exact ⟨⟨(role_category_iff tp.roles ctx.roles).mpr hthis.1,
            (perm_category_iff tp.permissions ctx.permissions).mpr hthis.2.1⟩,
            (role_category_iff tp.scopes ctx.scopes).mpr hthis.2.2⟩
  · intro e he
    cases hl : m.get_tool t with
    | none =>
      rw [enforce_of_none m ctx t hl] at he
      exact Except.noConfusion he
    | some tp =>
      rw [enforce_of_some m ctx t tp hl] at he
      split at he
      · exact Except.noConfusion he
      · injection he with he'
        subst he'
        exact ⟨rfl, rfl, tp, rfl, pyOrNil_some tp.roles,
          pyOrNil_some tp.permissions, pyOrNil_some tp.scopes⟩

theorem find?_key_eq_none (l : List (String × SessionData)) (u : String)
    (h : u ∉ l.map Prod.fst) : l.find? (fun p => p.fst == u) = none := by
  rw [List.find?_eq_none]
  intro x hx hbeq
  exact h ((beq_iff_eq.mp hbeq) ▸ List.mem_map_of_mem Prod.fst hx)

theorem find?_key_cons_true {a : String × SessionData} {u : String}
    (t : List (String × SessionData)) (hb : (a.fst == u) = true) :
    (a :: t).find? (fun p => p.fst == u) = some a := by
  simp [List.find?_cons, hb]

theorem find?_key_cons_false {a : String × SessionData} {u : String}
    (t : List (String × SessionData)) (hb : (a.fst == u) = false) :
    (a :: t).find? (fun p => p.fst == u) = t.find? (fun p => p.fst == u) := by
  simp [List.find?_cons, hb]

theorem find?_filter_keep (l : List (String × SessionData)) (u : String)
    (q : SessionData → Bool) (h : (l.map Prod.fst).Nodup) :
    ((l.filter (fun p => !(q p.snd))).find? (fun p => p.fst == u)).map Prod.snd =
      ((l.find? (fun p => p.fst == u)).map Prod.snd).bind
        (fun s => if q s then none else some s) := by
  induction l with
  | nil => rfl
  | cons a t ih =>
    rw [List.map_cons, List.nodup_cons] at h
    obtain ⟨ha, ht⟩ := h
    by_cases hk : a.fst = u
    · have hb : (a.fst == u) = true := beq_iff_eq.mpr hk
      by_cases hq : q a.snd = true
      · have habs : u ∉ (t.filter (fun p => !(q p.snd))).map Prod.fst := fun hmem =>
          ha (hk ▸ ((List.filter_sublist t).map Prod.fst).subset hmem)
        rw [List.filter_cons_of_neg (by simp [hq]), find?_key_eq_none _ u habs,
          find?_key_cons_true t hb]
        simp [hq]
      · have hqf : q a.snd = false := by revert hq; cases q a.snd <;> simp
        rw [List.filter_cons_of_pos (by simp [hqf]),
          find?_key_cons_true _ hb, find?_key_cons_true t hb]
        simp [hqf]
    · have hb : (a.fst == u) = false := by simp [hk]
      by_cases hq : q a.snd = true
      · rw [List.filter_cons_of_neg (by simp [hq]), find?_key_cons_false t hb]
        exact ih ht
      · have hqf : q a.snd = false := by revert hq; cases q a.snd <;> simp
        rw [List.filter_cons_of_pos (by simp [hqf]),
          find?_key_cons_false _ hb, find?_key_cons_false t hb]
        exact ih ht

/-- C7: `cleanup_expired` returns the number of sessions it read as expired
at cleanup time and removes exactly those, so that afterward a user is
loadable iff it was loadable before with a session not yet expired. -/
theorem cleanup_expired_spec (st : MemorySessionStore) (now : Int)
    (h : (st.sessions.map Prod.fst).Nodup) :
    (st.cleanup_expired now).snd =
      (st.sessions.filter (fun p => p.snd.is_expired now)).length
    ∧ ∀ u, (st.cleanup_expired now).fst.load u =
        (st.load u).bind (fun s => if s.is_expired now then none else some s) := by
  refine ⟨rfl, fun u => ?_⟩
  show ((st.sessions.filter (fun p => !(p.snd.is_expired now))).find?
      (fun p => p.fst == u)).map Prod.snd = _
  exact find?_filter_keep st.sessions u (fun s => s.is_expired now) h

theorem cleanup_expired_spec_witness :
    ((demoStore.sessions.map Prod.fst).Nodup)
    ∧ (demoStore.cleanup_expired 1000).snd = 1
    ∧ (demoStore.cleanup_expired 1000).fst.load "active_user" = some activeSession
    ∧ (demoStore.cleanup_expired 1000).fst.load "expired_user" = none :=
  ⟨by decide,
   ((cleanup_expired_spec demoStore 1000 (by decide)).1).trans (by decide),
   ((cleanup_expired_spec demoStore 1000 (by decide)).2 "active_user").trans (by decide),
   ((cleanup_expired_spec demoStore 1000 (by decide)).2 "expired_user").trans (by decide)⟩

theorem load_save_self (st : MemorySessionStore) (s : SessionData) :
    (st.save s).load s.user_id = some s := by
  unfold MemorySessionStore.save MemorySessionStore.load
  rw [List.find?_append]
  have h1 : (st.sessions.filter (fun p => p.fst != s.user_id)).find?
      (fun p => p.fst == s.user_id) = none := by
    rw [List.find?_eq_none]
    intro x hx
    rw [List.mem_filter] at hx
    simpa using hx.2
  rw [h1]
  simp [List.find?_cons]

/-- C8: for a store holding a session under `user_id`, `update_tokens`
replaces exactly `access_token`, `refresh_token` and `expires_at` (the
latter recomputed as `now + expires_in`), and `user_id`, `scopes`,
`provider`, `user_info` and `metadata` are unchanged afterward. -/
theorem update_tokens_frame_spec (st : MemorySessionStore)
    (u access : String) (refresh : Option String) (expires_in now : Int)
    (s : SessionData) (hload : st.load u = some s) (hid : s.user_id = u) :
    ∃ st' s', st.update_tokens u access refresh expires_in now = some st'
      ∧ st'.load u = some s'
      ∧ s'.access_token = access
      ∧ s'.refresh_token = refresh
      ∧ s'.expires_at = now + expires_in
      ∧ s'.user_id = s.user_id
      ∧ s'.scopes = s.scopes
      ∧ s'.provider = s.provider
      ∧ s'.user_info = s.user_info
      ∧ s'.metadata = s.metadata := by
  refine ⟨st.save { s with
      access_token := access,
      refresh_token := refresh,
      expires_at := now + expires_in },
    { s with
      access_token := access,
      refresh_token := refresh,
      expires_at := now + expires_in },
    ?_, ?_, rfl, rfl, rfl, rfl, rfl, rfl, rfl, rfl⟩
  · unfold MemorySessionStore.update_tokens
    rw [hload]
  · have hres := load_save_self st { s with
      access_token := access,
      refresh_token := refresh,
      expires_at := now + expires_in }
    rw [← hid]
    exact hres

theorem update_tokens_frame_spec_witness :
    (user123Store.load "user123" = some user123Session)
    ∧ (user123Session.user_id = "user123")
    ∧ ∃ st' s', user123Store.update_tokens "user123"
        "ya29.a0NEW_ACCESS_TOKEN_after_refresh" (some "1//01NEW_REFRESH_TOKEN")
        3600 2000 = some st'
      ∧ st'.load "user123" = some s'
      ∧ s'.access_token = "ya29.a0NEW_ACCESS_TOKEN_after_refresh"
      ∧ s'.refresh_token = some "1//01NEW_REFRESH_TOKEN"
      ∧ s'.expires_at = 2000 + 3600
      ∧ s'.user_id = user123Session.user_id
      ∧ s'.scopes = user123Session.scopes
      ∧ s'.provider = user123Session.provider
      ∧ s'.user_info = user123Session.user_info
      ∧ s'.metadata = user123Session.metadata :=
  ⟨by decide, by decide,
   update_tokens_frame_spec user123Store "user123"
     "ya29.a0NEW_ACCESS_TOKEN_after_refresh" (some "1//01NEW_REFRESH_TOKEN")
     3600 2000 user123Session (by decide) (by decide)⟩

theorem tools_round_trip (tools : List (String × ToolPermission))
    (h : ∀ p ∈ tools, p.snd.tool_name = p.fst) :
    ((tools.map (fun p => (p.fst,
        ({ roles := p.snd.roles, permissions := p.snd.permissions,
           scopes := p.snd.scopes, description := p.snd.description,
           dangerous := p.snd.dangerous } : ToolDoc)))).map (fun p => (p.fst,
        ({ tool_name := p.fst, roles := p.snd.roles,
           permissions := p.snd.permissions, scopes := p.snd.scopes,
           description := p.snd.description, dangerous := p.snd.dangerous }
           : ToolPermission)))) = tools := by
  induction tools with
  | nil => rfl
  | cons a t ih =>
    simp only [List.map_cons, List.cons.injEq]
    constructor
    · have hn := h a (List.mem_cons_self a t)
      obtain ⟨k, tp⟩ := a
      cases tp
      simp only at hn
      simp [hn]
    · exact ih (fun p hp => h p (List.mem_cons_of_mem a hp))

/-- C9: exporting a `PermissionManifest` to the declaration format and
re-importing the document restores the manifest exactly — the same
`ToolPermission` entries (descriptions and dangerous flags included) and the
same `ScopeDefinition` entries with their oauth mappings — provided each tool
entry is keyed by its own tool name, as `define_tool_permission` guarantees. -/
theorem manifest_round_trip_spec (m : PermissionManifest)
    (h : ∀ p ∈ m.tools, p.snd.tool_name = p.fst) :
    PermissionManifest.importDoc (PermissionManifest.export m) = m := by
  obtain ⟨scopes, tools⟩ := m
  exact congrArg (PermissionManifest.mk scopes) (tools_round_trip tools h)

theorem manifest_round_trip_spec_witness :
    (∀ p ∈ demoManifest.tools, p.snd.tool_name = p.fst)
    ∧ PermissionManifest.importDoc (PermissionManifest.export demoManifest) =
        demoManifest :=
  ⟨by decide, manifest_round_trip_spec demoManifest (by decide)⟩

/-- C4: when the supplied state differs from the state issued at
authorization-URL generation, code exchange always fails with a
`StateMismatchError`, and the outcome is independent of the token-endpoint
transport — no network call is made. -/
theorem exchange_state_mismatch_spec (cfg : OAuthConfig)
    (verifier_entropy state_entropy : List Nat)
    (code state verifier : String)
    (h : state ≠ (generate_authorization_url cfg verifier_entropy
        state_entropy).state) :
    (∀ post, exchange_code_for_token cfg
        (generate_authorization_url cfg verifier_entropy state_entropy).state
        code state verifier post =
      Except.error (OAuthError.stateMismatch
        "State mismatch - possible CSRF attack"))
    ∧ (∀ post1 post2, exchange_code_for_token cfg
        (generate_authorization_url cfg verifier_entropy state_entropy).state
        code state verifier post1 =
      exchange_code_for_token cfg
        (generate_authorization_url cfg verifier_entropy state_entropy).state
        code state verifier post2) := by
  have hb : (state == (generate_authorization_url cfg verifier_entropy
      state_entropy).state) = false := by
    simp [h]
  have key : ∀ post, exchange_code_for_token cfg
      (generate_authorization_url cfg verifier_entropy state_entropy).state
      code state verifier post =
    Except.error (OAuthError.stateMismatch
      "State mismatch - possible CSRF attack") := by
    intro post
    unfold exchange_code_for_token
    rw [hb]
    simp
  exact ⟨key, fun p1 p2 => (key p1).trans (key p2).symm⟩

theorem exchange_state_mismatch_spec_witness :
    ("wrong" ≠ (generate_authorization_url demoOAuthConfig [] []).state)
    ∧ ((∀ post, exchange_code_for_token demoOAuthConfig
          (generate_authorization_url demoOAuthConfig [] []).state
          "authcode" "wrong" "ver" post =
        Except.error (OAuthError.stateMismatch
          "State mismatch - possible CSRF attack"))
      ∧ (∀ post1 post2, exchange_code_for_token demoOAuthConfig
          (generate_authorization_url demoOAuthConfig [] []).state
          "authcode" "wrong" "ver" post1 =
        exchange_code_for_token demoOAuthConfig
          (generate_authorization_url demoOAuthConfig [] []).state
          "authcode" "wrong" "ver" post2)) :=
  ⟨by decide, exchange_state_mismatch_spec demoOAuthConfig [] []
    "authcode" "wrong" "ver" (by decide)⟩

theorem getD_mod_mem (k : Nat) :
    unreservedChars.getD (k % 66) 'A' ∈ unreservedChars := by
  have hlen : unreservedChars.length = 66 := by decide
  have hlt : k % 66 < unreservedChars.length := by
    rw [hlen]
    exact Nat.mod_lt k (by norm_num)
  rw [List.getD_eq_getElem?_getD, List.getElem?_eq_getElem hlt]
  simpa using List.getElem_mem hlt

/-- C5: every generated authorization attempt carries a PKCE pair whose
challenge equals base64url(sha256(verifier)) with challenge method `S256`
among the URL parameters, and whose verifier is a string of 43 to 128
characters drawn from the unreserved charset. -/
theorem generate_authorization_url_pkce_spec (cfg : OAuthConfig)
    (verifier_entropy state_entropy : List Nat) :
    (generate_authorization_url cfg verifier_entropy state_entropy).challenge =
      base64urlEncode (sha256 (strBytes
        (generate_authorization_url cfg verifier_entropy state_entropy).verifier))
    ∧ 43 ≤ (generate_authorization_url cfg verifier_entropy
        state_entropy).verifier.length
    ∧ (generate_authorization_url cfg verifier_entropy
        state_entropy).verifier.length ≤ 128
    ∧ (∀ c ∈ (generate_authorization_url cfg verifier_entropy
        state_entropy).verifier.data, c ∈ unreservedChars)
    ∧ ("code_challenge_method", "S256") ∈
        (generate_authorization_url cfg verifier_entropy state_entropy).params := by
  have hlen : (generate_authorization_url cfg verifier_entropy
      state_entropy).verifier.length = 43 := by
    simp [generate_authorization_url, verifierFromEntropy, String.length]
  refine ⟨rfl, by omega, by omega, ?_, ?_⟩
  · intro c hc
    simp only [generate_authorization_url, verifierFromEntropy, data_mk,
      List.mem_map, List.mem_range] at hc
    obtain ⟨i, _, hrfl⟩ := hc
    rw [← hrfl]
    exact getD_mod_mem _
  · simp [generate_authorization_url]
